import Mathlib

/-!
Verification of the deterministic utility logic of the `ossAI_transcribe`
repository: timestamp formatting, subtitle serialization, output-directory
resolution and the write-with-fallback orchestration, for both front-ends
(`transcribe.py`, the CLI, and `gui_transcribe.py`, the GUI).

Seconds values are modelled as exact rationals (`ℚ`); Python `round` (round
half to even) and the `datetime.timedelta` microsecond rounding are modelled
exactly over `ℚ`.  File writes are modelled as pure content-producing
functions plus an explicit file-system state for the orchestration layer.
-/

section Embedding

-- Batteries marks the rational arithmetic operations `@[irreducible]`; the
-- concrete evaluations below need them to unfold during elaboration.
attribute [local semireducible] Rat.mul Rat.add Rat.sub Rat.inv

/-- Python `round(x)`: round to the nearest integer, halves to even. -/
def roundHalfEven (q : ℚ) : ℤ :=
  let f := ⌊q⌋
  let r := q - (f : ℚ)
  if r < 1/2 then f
  else if 1/2 < r then f + 1
  else if f % 2 = 0 then f else f + 1

/-- Python `"%0Wd" % n` / `f"{n:0Wd}"` zero padding of a nonnegative integer
to a minimum width (wider numbers keep all their digits, no truncation). -/
def padNat (w : ℕ) (n : ℕ) : String :=
  String.mk (List.replicate (w - (Nat.repr n).length) '0') ++ Nat.repr n

/-- The ASCII whitespace stripped by Python `str.strip()` (the texts we model
are ASCII, so the extra Unicode whitespace cases are not needed). -/
def isPySpace (c : Char) : Bool :=
  c = ' ' || c = '\t' || c = '\n' || c = '\r' || c = '\x0b' || c = '\x0c'

/-- Python `s.strip()`: remove leading and trailing whitespace. -/
def pyStrip (s : String) : String :=
  String.mk (((s.data.dropWhile isPySpace).reverse.dropWhile isPySpace).reverse)

/-- Python `s[:-3]`: all characters of `s` but the last three. -/
def pyDropLast3 (s : String) : String :=
  String.mk (s.data.take (s.data.length - 3))

/-- Python `s.replace('.', ',')`: a one-character pattern replacement is a
character-wise map over the string. -/
def replaceDotComma (s : String) : String :=
  String.mk (s.data.map fun c => if c = '.' then ',' else c)

/-- A transcript segment as produced by the model library: a start time, an
end time and a text (`seg.start`, `seg.end`, `seg.text` in the source). -/
structure Segment where
  start : ℚ
  «end» : ℚ
  text : String
  deriving DecidableEq

namespace transcribe

/-- `transcribe.py` lines 7–15.  `total_ms = int(round(seconds * 1000))`,
clamped to zero when negative (the clamp of lines 10–11 is `Int.toNat`),
then decomposed by `divmod` and zero-padded. -/
def _format_hhmmss_ms (seconds : ℚ) (sep : String) : String :=
  let total_ms : ℕ := (roundHalfEven (seconds * 1000)).toNat
  let hh := total_ms / 3600000
  let rem := total_ms % 3600000
  let mm := rem / 60000
  let rem2 := rem % 60000
  let ss := rem2 / 1000
  let ms := rem2 % 1000
  padNat 2 hh ++ ":" ++ padNat 2 mm ++ ":" ++ padNat 2 ss ++ sep ++ padNat 3 ms

/-- `transcribe.py` lines 17–18. -/
def srt_ts (s : ℚ) : String := _format_hhmmss_ms s ","

/-- `transcribe.py` lines 20–21. -/
def vtt_ts (s : ℚ) : String := _format_hhmmss_ms s "."

/-- `transcribe.py` lines 24–27: content written by `write_txt` (one stripped
text line per segment). -/
def write_txt (segments : List Segment) : String :=
  String.join (segments.map fun seg => pyStrip seg.text ++ "\n")

/-- One SRT block of `transcribe.py` line 32, for 1-based index `i`. -/
def srtBlock (i : ℕ) (seg : Segment) : String :=
  Nat.repr i ++ "\n" ++ srt_ts seg.start ++ " --> " ++ srt_ts seg.«end» ++ "\n"
    ++ pyStrip seg.text ++ "\n\n"

/-- The `for i, seg in enumerate(segments, 1)` loop of `write_srt`,
with `i` the index of the first remaining segment. -/
def srtBody (i : ℕ) : List Segment → String
  | [] => ""
  | seg :: rest => srtBlock i seg ++ srtBody (i + 1) rest

/-- `transcribe.py` lines 29–32: content written by `write_srt`. -/
def write_srt (segments : List Segment) : String := srtBody 1 segments

/-- One VTT block of `transcribe.py` line 38. -/
def vttBlock (seg : Segment) : String :=
  vtt_ts seg.start ++ " --> " ++ vtt_ts seg.«end» ++ "\n" ++ pyStrip seg.text ++ "\n\n"

/-- The `for seg in segments` loop of `write_vtt`. -/
def vttBody : List Segment → String
  | [] => ""
  | seg :: rest => vttBlock seg ++ vttBody rest

/-- `transcribe.py` lines 34–38: content written by `write_vtt`
(`WEBVTT` header, blank line, then timestamped blocks, no indices). -/
def write_vtt (segments : List Segment) : String :=
  "WEBVTT\n\n" ++ vttBody segments

/-- `transcribe.py` lines 114–116: the manifest `wrote` printed by `main`
(txt path unconditionally, then srt and vtt paths per their flags). -/
def main_wrote (txt_path srt_path vtt_path : String) (srt_flag vtt_flag : Bool) :
    List String :=
  [txt_path] ++ (if srt_flag then [srt_path] else [])
    ++ (if vtt_flag then [vtt_path] else [])

/-- `transcribe.py` lines 100–104: the sequence of (path, content) writes
performed by `main` (txt unconditionally, then srt and vtt per flag). -/
def main_writePlan (base : String) (srt_flag vtt_flag : Bool)
    (segments : List Segment) : List (String × String) :=
  [(base ++ ".txt", write_txt segments)]
    ++ (if srt_flag then [(base ++ ".srt", write_srt segments)] else [])
    ++ (if vtt_flag then [(base ++ ".vtt", write_vtt segments)] else [])

end transcribe

namespace gui_transcribe

/-- `str(datetime.timedelta(...))` for a timedelta of `total_us` microseconds,
following CPython's `timedelta.__str__`: normalize into days (floor division,
so days may be negative), hours/minutes/seconds and microseconds; render
`H:MM:SS` with unpadded hours, prefix `D day[s], ` when days are nonzero, and
append `.uuuuuu` only when the microsecond part is nonzero. -/
def pyTimedeltaStr (total_us : ℤ) : String :=
  let days : ℤ := total_us.fdiv 86400000000
  let rem : ℕ := (total_us.fmod 86400000000).toNat
  let secs := rem / 1000000
  let us := rem % 1000000
  let mm0 := secs / 60
  let ss := secs % 60
  let hh := mm0 / 60
  let mm := mm0 % 60
  let base := Nat.repr hh ++ ":" ++ padNat 2 mm ++ ":" ++ padNat 2 ss
  let base := if days ≠ 0 then
      Int.repr days ++ " day" ++ (if days.natAbs ≠ 1 then "s" else "") ++ ", " ++ base
    else base
  if us ≠ 0 then base ++ "." ++ padNat 6 us else base

/-- `datetime.timedelta(seconds=s)` holds `round-half-even(s · 10⁶)`
microseconds (CPython rounds fractional microseconds half to even). -/
def timedeltaUs (s : ℚ) : ℤ := roundHalfEven (s * 1000000)

/-- `gui_transcribe.py` lines 23–25: `str(timedelta(seconds=s))[:-3]` with
`'.'` replaced by `','`. -/
def srt_ts (s : ℚ) : String :=
  replaceDotComma (pyDropLast3 (pyTimedeltaStr (timedeltaUs s)))

/-- `gui_transcribe.py` lines 38–40 (the local `vtt_ts` inside `write_vtt`):
`str(timedelta(seconds=s))[:-3]`. -/
def vtt_ts (s : ℚ) : String :=
  pyDropLast3 (pyTimedeltaStr (timedeltaUs s))

/-- `gui_transcribe.py` lines 27–30: content written by `write_txt`. -/
def write_txt (segments : List Segment) : String :=
  String.join (segments.map fun seg => pyStrip seg.text ++ "\n")

/-- One SRT block of `gui_transcribe.py` line 35, for 1-based index `i`. -/
def srtBlock (i : ℕ) (seg : Segment) : String :=
  Nat.repr i ++ "\n" ++ srt_ts seg.start ++ " --> " ++ srt_ts seg.«end» ++ "\n"
    ++ pyStrip seg.text ++ "\n\n"

/-- The `for i, seg in enumerate(segments, 1)` loop of the GUI `write_srt`. -/
def srtBody (i : ℕ) : List Segment → String
  | [] => ""
  | seg :: rest => srtBlock i seg ++ srtBody (i + 1) rest

/-- `gui_transcribe.py` lines 32–35: content written by `write_srt`. -/
def write_srt (segments : List Segment) : String := srtBody 1 segments

/-- One VTT block of `gui_transcribe.py` line 44. -/
def vttBlock (seg : Segment) : String :=
  vtt_ts seg.start ++ " --> " ++ vtt_ts seg.«end» ++ "\n" ++ pyStrip seg.text ++ "\n\n"

/-- The `for seg in segments` loop of the GUI `write_vtt`. -/
def vttBody : List Segment → String
  | [] => ""
  | seg :: rest => vttBlock seg ++ vttBody rest

/-- `gui_transcribe.py` lines 37–44: content written by `write_vtt`. -/
def write_vtt (segments : List Segment) : String :=
  "WEBVTT\n\n" ++ vttBody segments

/-- `gui_transcribe.py` line 14: `DEFAULT_OUT = Path.home() / "WhisperLite"`,
as a string, parameterized by the user's home directory. -/
def DEFAULT_OUT (home : String) : String := home ++ "/WhisperLite"

/-- Split a character list at `'/'` separators (auxiliary for path
normalization); `acc` holds the current component reversed. -/
def splitSlashAux : List Char → List Char → List (List Char)
  | [], acc => [acc.reverse]
  | c :: rest, acc =>
    if c = '/' then acc.reverse :: splitSlashAux rest []
    else splitSlashAux rest (c :: acc)

/-- Split a character list at `'/'` separators. -/
def splitSlash (l : List Char) : List (List Char) := splitSlashAux l []

/-- Model of `str(pathlib.Path(s))` on POSIX: drop empty and `"."` path
components; an empty result renders as `"."` (so `str(Path("")) == "."`),
an absolute path keeps its leading `'/'`.  (The POSIX `"//"`-prefix corner
case is not modelled; it does not occur in the inputs considered.) -/
def posixPathStr (s : String) : String :=
  let comps := (splitSlash s.data).filter fun c => !c.isEmpty && c ≠ ['.']
  match s.data with
  | '/' :: _ => String.mk ('/' :: List.intercalate ['/'] comps)
  | _ => if comps.isEmpty then "." else String.mk (List.intercalate ['/'] comps)

/-- `gui_transcribe.py` lines 90–92: `out = self.out_dir` (a `Path`), replaced
by `DEFAULT_OUT` when `str(out)` is `"/"` or `""`. -/
def resolveOutDir (home out_dir : String) : String :=
  let out := posixPathStr out_dir
  if out = "/" ∨ out = "" then DEFAULT_OUT home else out

/-- Model of `Path.mkdir(parents=True, exist_ok=True)` on a directory set:
inserts the directory and never fails when it already exists. -/
def mkdirParentsExistOk (dirs : List String) (d : String) : List String :=
  if d ∈ dirs then dirs else d :: dirs

/-- A file system: an association of paths to file contents (later writes
shadow earlier ones). -/
structure FsState where
  files : List (String × String)
  deriving DecidableEq

/-- A successful `open(path, "w")` plus write: record the new content. -/
def setFile (fs : FsState) (p c : String) : FsState := ⟨(p, c) :: fs.files⟩

/-- Look up the current content of a path. -/
def getFile (fs : FsState) (p : String) : Option String :=
  (fs.files.find? fun e => e.1 = p).map fun e => e.2

/-- `str(out / f"{base}.txt")` and friends: path join. -/
def joinPath (dir name : String) : String := dir ++ "/" ++ name

/-- `gui_transcribe.py` line 96. -/
def txt_path (dir base : String) : String := joinPath dir (base ++ ".txt")

/-- `gui_transcribe.py` line 97. -/
def srt_path (dir base : String) : String := joinPath dir (base ++ ".srt")

/-- `gui_transcribe.py` line 98. -/
def vtt_path (dir base : String) : String := joinPath dir (base ++ ".vtt")

/-- `gui_transcribe.py` lines 118–122 (and 130–136 with `dir` the fallback):
the ordered (path, content) writes of one attempt — txt unconditionally,
then srt and vtt per their flags. -/
def writePlan (dir base : String) (srt_flag vtt_flag : Bool)
    (segments : List Segment) : List (String × String) :=
  [(txt_path dir base, write_txt segments)]
    ++ (if srt_flag then [(srt_path dir base, write_srt segments)] else [])
    ++ (if vtt_flag then [(vtt_path dir base, write_vtt segments)] else [])

/-- `gui_transcribe.py` lines 123–125 (and the fallback message of lines
130–136): the reported manifest — txt path first, then srt and vtt per flag. -/
def wroteList (dir base : String) (srt_flag vtt_flag : Bool) : List String :=
  [txt_path dir base] ++ (if srt_flag then [srt_path dir base] else [])
    ++ (if vtt_flag then [vtt_path dir base] else [])

/-- Attempt a sequence of writes in order.  `ok` says whether opening a path
for writing succeeds; a failing `open` raises `OSError` before creating the
file, aborting the remaining writes.  Returns the resulting file system, the
successfully written (path, content) pairs in order, and whether the whole
sequence succeeded. -/
def attemptWrites (ok : String → Bool) (fs : FsState) :
    List (String × String) → FsState × List (String × String) × Bool
  | [] => (fs, [], true)
  | (p, c) :: rest =>
    if ok p then
      let r := attemptWrites ok (setFile fs p c) rest
      (r.1, (p, c) :: r.2.1, r.2.2)
    else (fs, [], false)

/-- Outcome of the write phase: the `done` signal with its manifest, or the
`failed` signal (the exception reached the outer handler). -/
inductive WriteOutcome where
  | done (manifest : List String)
  | failed
  deriving DecidableEq

/-- `gui_transcribe.py` lines 116–137: the `try`/`except OSError` write phase
of `TranscribeWorker.run`.  Try all requested writes in the resolved
directory `out`; on a failure, `mkdir` the fallback directory `fb` and retry
the entire batch there; a failure of the fallback (or of its `mkdir`)
escapes to the outer handler as `failed`. -/
def writePhase (ok mkdirOk : String → Bool) (fs : FsState) (out fb base : String)
    (srt_flag vtt_flag : Bool) (segments : List Segment) : FsState × WriteOutcome :=
  let primary := attemptWrites ok fs (writePlan out base srt_flag vtt_flag segments)
  if primary.2.2 then
    (primary.1, .done (wroteList out base srt_flag vtt_flag))
  else if mkdirOk fb then
    let fbRun := attemptWrites ok primary.1 (writePlan fb base srt_flag vtt_flag segments)
    if fbRun.2.2 then (fbRun.1, .done (wroteList fb base srt_flag vtt_flag))
    else (fbRun.1, .failed)
  else (primary.1, .failed)

/-- `gui_transcribe.py` lines 87–137 (the file-output part of
`TranscribeWorker.run`): resolve the output directory, `mkdir` it (a failure
here escapes directly to the outer handler), then run the write phase with
`DEFAULT_OUT` as the fallback directory. -/
def run (ok mkdirOk : String → Bool) (fs : FsState) (home out_dir base : String)
    (srt_flag vtt_flag : Bool) (segments : List Segment) : FsState × WriteOutcome :=
  let out := resolveOutDir home out_dir
  if mkdirOk out then
    writePhase ok mkdirOk fs out (DEFAULT_OUT home) base srt_flag vtt_flag segments
  else (fs, .failed)

end gui_transcribe

/-! ## Helper lemmas -/

theorem roundHalfEven_nonpos {q : ℚ} (h : q < 0) : roundHalfEven q ≤ 0 := by
  have hf : ⌊q⌋ ≤ -1 := by
    by_contra hc
    push_neg at hc
    have : (0 : ℤ) ≤ ⌊q⌋ := by omega
    exact absurd (le_trans (Int.cast_nonneg.mpr this) (Int.floor_le q)) (not_le.mpr h)
  simp only [roundHalfEven]
  split_ifs <;> omega

theorem roundHalfEven_intCast (n : ℤ) : roundHalfEven (n : ℚ) = n := by
  simp only [roundHalfEven, Int.floor_intCast, sub_self]
  rw [if_pos (by norm_num)]

theorem cli_srtBody_append (l : List Segment) (x : Segment) (i : ℕ) :
    transcribe.srtBody i (l ++ [x])
      = transcribe.srtBody i l ++ transcribe.srtBlock (i + l.length) x := by
  induction l generalizing i with
  | nil => simp [transcribe.srtBody]
  | cons a t ih =>
    simp only [List.cons_append, List.append_eq, transcribe.srtBody, List.length_cons, ih,
      String.append_assoc]
    rw [show i + (t.length + 1) = i + 1 + t.length by omega]

theorem cli_vttBody_append (l : List Segment) (x : Segment) :
    transcribe.vttBody (l ++ [x]) = transcribe.vttBody l ++ transcribe.vttBlock x := by
  induction l with
  | nil => simp [transcribe.vttBody]
  | cons a t ih =>
    simp only [List.cons_append, List.append_eq, transcribe.vttBody, ih, String.append_assoc]

theorem gui_vttBody_append (l : List Segment) (x : Segment) :
    gui_transcribe.vttBody (l ++ [x])
      = gui_transcribe.vttBody l ++ gui_transcribe.vttBlock x := by
  induction l with
  | nil => simp [gui_transcribe.vttBody]
  | cons a t ih =>
    simp only [List.cons_append, List.append_eq, gui_transcribe.vttBody, ih,
      String.append_assoc]

theorem replaceDotComma_length (s : String) :
    (replaceDotComma s).data.length = s.data.length := by
  simp [replaceDotComma]

theorem replaceDotComma_zip (s : String) :
    ∀ p ∈ s.data.zip (replaceDotComma s).data, p.1 ≠ p.2 → p.1 = '.' ∧ p.2 = ',' := by
  intro p hp hne
  have hz : s.data.zip (replaceDotComma s).data
      = s.data.map fun c => (c, if c = '.' then ',' else c) := by
    simp only [replaceDotComma]
    induction s.data with
    | nil => rfl
    | cons a t ih => simp [List.zip_cons_cons, ih]
  rw [hz] at hp
  obtain ⟨c, _, rfl⟩ := List.mem_map.mp hp
  by_cases hc : c = '.'
  · subst hc; simp at hne ⊢
  · simp [hc] at hne

/-! ## Claim theorems -/

/-- C1: for the two segments `{0, 1, "Hello"}` and `{1, 2.5, "world"}` the
CLI SRT writer produces exactly the claimed string, and in general appending
a segment appends one block with a 1-based index line, a comma-formatted
time range line, the trimmed text and a blank line.  The GUI SRT writer,
however, produces a different string on the same segments: its slicing
formatter renders integral timestamps as `0:00` (the failing evaluation is
the last conjunct). -/
theorem srt_output_c1 :
    transcribe.write_srt [⟨0, 1, "Hello"⟩, ⟨1, 5/2, "world"⟩]
        = "1\n00:00:00,000 --> 00:00:01,000\nHello\n\n2\n00:00:01,000 --> 00:00:02,500\nworld\n\n"
    ∧ (∀ (segs : List Segment) (seg : Segment),
        transcribe.write_srt (segs ++ [seg])
          = transcribe.write_srt segs ++ transcribe.srtBlock (segs.length + 1) seg)
    ∧ gui_transcribe.write_srt [⟨0, 1, "Hello"⟩, ⟨1, 5/2, "world"⟩]
        = "1\n0:00 --> 0:00\nHello\n\n2\n0:00 --> 0:00:02,500\nworld\n\n" := by
  refine ⟨by decide, ?_, by decide⟩
  intro segs seg
  rw [transcribe.write_srt, transcribe.write_srt, cli_srtBody_append,
    Nat.add_comm 1 segs.length]

/-- C2: the CLI formatter always returns `HH:MM:SS<sep>mmm` with minutes,
seconds below 60 and milliseconds below 1000, two/three digit zero padding
and unbounded hours (`25:00:00,000` at 90000 s), and `format(0, sep)` is
`"00:00:00" ++ sep ++ "000"`.  The GUI formatter violates the claimed shape:
`srt_ts 0 = "0:00"` (string-sliced `timedelta`, missing fields entirely). -/
theorem timestamp_shape_c2 :
    (∀ (q : ℚ) (sep : String), ∃ hh mm ss ms : ℕ, mm < 60 ∧ ss < 60 ∧ ms < 1000 ∧
        transcribe._format_hhmmss_ms q sep
          = padNat 2 hh ++ ":" ++ padNat 2 mm ++ ":" ++ padNat 2 ss ++ sep ++ padNat 3 ms)
    ∧ (∀ sep : String, transcribe._format_hhmmss_ms 0 sep = "00:00:00" ++ sep ++ "000")
    ∧ transcribe.srt_ts 90000 = "25:00:00,000"
    ∧ gui_transcribe.srt_ts 0 = "0:00" := by
  refine ⟨?_, fun sep => rfl, by decide, by decide⟩
  intro q sep
  exact ⟨(roundHalfEven (q * 1000)).toNat / 3600000,
    (roundHalfEven (q * 1000)).toNat % 3600000 / 60000,
    (roundHalfEven (q * 1000)).toNat % 3600000 % 60000 / 1000,
    (roundHalfEven (q * 1000)).toNat % 3600000 % 60000 % 1000,
    by omega, by omega, by omega, rfl⟩

/-- C4 counterexample: the GUI formatter does not clamp negative inputs to
zero: at −1 s it renders the negative timedelta `"-1 day, 23:59"`, which
differs from its output at 0. -/
theorem negative_clamp_c4_cex :
    gui_transcribe.srt_ts (-1) = "-1 day, 23:59"
    ∧ gui_transcribe.srt_ts 0 = "0:00"
    ∧ gui_transcribe.srt_ts (-1) ≠ gui_transcribe.srt_ts 0 := by
  refine ⟨by decide, by decide, by decide⟩

/-- C4 (amended): the CLI formatter treats every negative input as zero
(`format(q, sep) = format(0, sep)` for `q < 0`), raising no error; the GUI
formatter has no such clamp. -/
theorem negative_clamp_c4 (q : ℚ) (hq : q < 0) (sep : String) :
    transcribe._format_hhmmss_ms q sep = transcribe._format_hhmmss_ms 0 sep := by
  have h1 : roundHalfEven (q * 1000) ≤ 0 :=
    roundHalfEven_nonpos (mul_neg_of_neg_of_pos hq (by norm_num))
  have h2 : (roundHalfEven (q * 1000)).toNat = 0 := Int.toNat_of_nonpos h1
  have h3 : (roundHalfEven ((0 : ℚ) * 1000)).toNat = 0 := by decide
  simp only [transcribe._format_hhmmss_ms, h2, h3]

theorem negative_clamp_c4_witness :
    ((-1 : ℚ) < 0)
    ∧ transcribe._format_hhmmss_ms (-1) "," = transcribe._format_hhmmss_ms 0 "," :=
  ⟨by norm_num, negative_clamp_c4 (-1) (by norm_num) ","⟩

/-- C6 counterexample: with the empty string as `out_dir` the resolved
directory is `"."` (the process working directory), because
`str(Path(""))` is `"."` and the code only checks for `"/"` and `""`; it is
not the fixed default directory. -/
theorem out_dir_resolution_c6_cex :
    gui_transcribe.resolveOutDir "/home/user" "" = "."
    ∧ gui_transcribe.resolveOutDir "/home/user" ""
        ≠ gui_transcribe.DEFAULT_OUT "/home/user" := by
  refine ⟨by decide, by decide⟩

/-- C6 (amended): the filesystem root resolves to the fixed default
directory; the empty string resolves to `"."` (not the default, since
`Path("")` normalizes to `"."`); directory creation is idempotent and
reports the directory present. -/
theorem out_dir_resolution_c6 :
    (∀ home, gui_transcribe.resolveOutDir home "/" = gui_transcribe.DEFAULT_OUT home)
    ∧ (∀ home, gui_transcribe.resolveOutDir home "" = ".")
    ∧ (∀ (dirs : List String) (d : String),
        gui_transcribe.mkdirParentsExistOk (gui_transcribe.mkdirParentsExistOk dirs d) d
          = gui_transcribe.mkdirParentsExistOk dirs d
        ∧ d ∈ gui_transcribe.mkdirParentsExistOk dirs d) := by
  refine ⟨fun home => rfl, fun home => rfl, ?_⟩
  intro dirs d
  by_cases h : d ∈ dirs <;> simp [gui_transcribe.mkdirParentsExistOk, h]

/-- C5: both VTT writers emit exactly the literal header `WEBVTT` plus a
blank line on no segments, and appending a segment appends one block — a
time range line produced by the front-end's period-style formatter, the
trimmed text and a blank line, with no index line; on the two example
segments the CLI writer produces the full expected file. -/
theorem vtt_output_c5 :
    (∀ (segs : List Segment) (seg : Segment),
        transcribe.write_vtt (segs ++ [seg])
          = transcribe.write_vtt segs ++ transcribe.vttBlock seg)
    ∧ transcribe.write_vtt [] = "WEBVTT\n\n"
    ∧ (∀ (segs : List Segment) (seg : Segment),
        gui_transcribe.write_vtt (segs ++ [seg])
          = gui_transcribe.write_vtt segs ++ gui_transcribe.vttBlock seg)
    ∧ gui_transcribe.write_vtt [] = "WEBVTT\n\n"
    ∧ (∀ seg : Segment, transcribe.vttBlock seg
        = transcribe.vtt_ts seg.start ++ " --> " ++ transcribe.vtt_ts seg.«end» ++ "\n"
          ++ pyStrip seg.text ++ "\n\n")
    ∧ transcribe.write_vtt [⟨0, 1, "Hello"⟩, ⟨1, 5/2, "world"⟩]
        = "WEBVTT\n\n00:00:00.000 --> 00:00:01.000\nHello\n\n00:00:01.000 --> 00:00:02.500\nworld\n\n" := by
  refine ⟨?_, rfl, ?_, rfl, fun seg => rfl, by decide⟩
  · intro segs seg
    rw [transcribe.write_vtt, transcribe.write_vtt, cli_vttBody_append, String.append_assoc]
  · intro segs seg
    rw [gui_transcribe.write_vtt, gui_transcribe.write_vtt, gui_vttBody_append,
      String.append_assoc]

/-- C7: for nonnegative seconds, the CLI comma- and period-style outputs
share a common prefix and suffix around the single separator character (so
they have equal length and differ only there); in the GUI the comma-style
output is the character-wise `'.' ↦ ','` image of the period-style output,
so the two have equal length and any differing position holds `'.'` in the
period string and `','` in the comma string. -/
theorem separator_diff_c7 (q : ℚ) (_hq : 0 ≤ q) :
    (∃ pre post, transcribe.srt_ts q = pre ++ "," ++ post
      ∧ transcribe.vtt_ts q = pre ++ "." ++ post)
    ∧ (gui_transcribe.srt_ts q).data.length = (gui_transcribe.vtt_ts q).data.length
    ∧ ∀ p ∈ (gui_transcribe.vtt_ts q).data.zip (gui_transcribe.srt_ts q).data,
        p.1 ≠ p.2 → p.1 = '.' ∧ p.2 = ',' := by
  refine ⟨⟨padNat 2 ((roundHalfEven (q * 1000)).toNat / 3600000) ++ ":"
      ++ padNat 2 ((roundHalfEven (q * 1000)).toNat % 3600000 / 60000) ++ ":"
      ++ padNat 2 ((roundHalfEven (q * 1000)).toNat % 3600000 % 60000 / 1000),
      padNat 3 ((roundHalfEven (q * 1000)).toNat % 3600000 % 60000 % 1000), rfl, rfl⟩,
    replaceDotComma_length (gui_transcribe.vtt_ts q),
    replaceDotComma_zip (gui_transcribe.vtt_ts q)⟩

theorem separator_diff_c7_witness :
    (0 ≤ (3/2 : ℚ))
    ∧ ((∃ pre post, transcribe.srt_ts (3/2) = pre ++ "," ++ post
        ∧ transcribe.vtt_ts (3/2) = pre ++ "." ++ post)
      ∧ (gui_transcribe.srt_ts (3/2)).data.length = (gui_transcribe.vtt_ts (3/2)).data.length
      ∧ ∀ p ∈ (gui_transcribe.vtt_ts (3/2)).data.zip (gui_transcribe.srt_ts (3/2)).data,
          p.1 ≠ p.2 → p.1 = '.' ∧ p.2 = ',') :=
  ⟨by norm_num, separator_diff_c7 (3/2) (by norm_num)⟩

/-- C8 counterexample: at 0.2009 s the CLI formatter (round half to even on
milliseconds) emits `,201` while the GUI formatter (string truncation of the
timedelta microseconds) emits `,200` — the two front-ends do not share one
rounding rule, and the GUI result is exactly the truncation artifact the
claim rules out. -/
theorem rounding_rule_c8_cex :
    transcribe.srt_ts (2009/10000) = "00:00:00,201"
    ∧ gui_transcribe.srt_ts (2009/10000) = "0:00:00,200" := by
  refine ⟨by decide, by decide⟩

/-- C8 (amended): the CLI formatter's output depends on its input only
through the round-half-to-even millisecond count (pre-rounding the input to
whole milliseconds leaves the output unchanged), with the spec's example
`format(3661.2005, comma) = "01:01:01,200"` under that rule; the GUI
formatter instead truncates (`0.2009` gives `,200` against the CLI's
`,201`). -/
theorem rounding_rule_c8 :
    (∀ (q : ℚ) (sep : String),
        transcribe._format_hhmmss_ms q sep
          = transcribe._format_hhmmss_ms (((roundHalfEven (q * 1000) : ℤ) : ℚ) / 1000) sep)
    ∧ transcribe.srt_ts (36612005/10000) = "01:01:01,200"
    ∧ transcribe.srt_ts (2009/10000) = "00:00:00,201"
    ∧ gui_transcribe.srt_ts (2009/10000) = "0:00:00,200" := by
  refine ⟨?_, by decide, by decide, by decide⟩
  intro q sep
  have h : (((roundHalfEven (q * 1000) : ℤ) : ℚ) / 1000) * 1000
      = ((roundHalfEven (q * 1000) : ℤ) : ℚ) := by field_simp
  have key : roundHalfEven ((((roundHalfEven (q * 1000) : ℤ) : ℚ) / 1000) * 1000)
      = roundHalfEven (q * 1000) := by rw [h, roundHalfEven_intCast]
  simp only [transcribe._format_hhmmss_ms, key]

theorem getFile_setFile_self (fs : gui_transcribe.FsState) (p c : String) :
    gui_transcribe.getFile (gui_transcribe.setFile fs p c) p = some c := by
  simp [gui_transcribe.getFile, gui_transcribe.setFile]

theorem getFile_setFile_ne (fs : gui_transcribe.FsState) (p c q : String) (h : q ≠ p) :
    gui_transcribe.getFile (gui_transcribe.setFile fs p c) q
      = gui_transcribe.getFile fs q := by
  simp only [gui_transcribe.getFile, gui_transcribe.setFile]
  rw [List.find?_cons_of_neg]
  simp [Ne.symm h]

theorem attemptWrites_fst_preserve (ok : String → Bool) (plan : List (String × String)) :
    ∀ (fs : gui_transcribe.FsState) (p : String), p ∉ plan.map Prod.fst →
      gui_transcribe.getFile (gui_transcribe.attemptWrites ok fs plan).1 p
        = gui_transcribe.getFile fs p := by
  induction plan with
  | nil => intro fs p _; rfl
  | cons e rest ih =>
    intro fs p hp
    obtain ⟨q, c⟩ := e
    simp only [List.map_cons, List.mem_cons] at hp
    push_neg at hp
    by_cases h : ok q
    · simp only [gui_transcribe.attemptWrites, h, if_true]
      rw [ih _ _ hp.2, getFile_setFile_ne _ _ _ _ hp.1]
    · simp only [gui_transcribe.attemptWrites, h, Bool.false_eq_true, if_false]

theorem attemptWrites_written_sub (ok : String → Bool) (plan : List (String × String)) :
    ∀ (fs : gui_transcribe.FsState),
      ∀ pc ∈ (gui_transcribe.attemptWrites ok fs plan).2.1, pc ∈ plan := by
  induction plan with
  | nil => intro fs pc h; simp [gui_transcribe.attemptWrites] at h
  | cons e rest ih =>
    intro fs pc h
    obtain ⟨q, c⟩ := e
    by_cases hq : ok q
    · simp only [gui_transcribe.attemptWrites, hq, if_true, List.mem_cons] at h
      rcases h with rfl | hmem
      · exact List.mem_cons_self _ _
      · exact List.mem_cons_of_mem _ (ih _ pc hmem)
    · simp [gui_transcribe.attemptWrites, hq] at h

theorem attemptWrites_written_getFile (ok : String → Bool) (plan : List (String × String))
    (hnd : (plan.map Prod.fst).Nodup) :
    ∀ (fs : gui_transcribe.FsState),
      ∀ pc ∈ (gui_transcribe.attemptWrites ok fs plan).2.1,
        gui_transcribe.getFile (gui_transcribe.attemptWrites ok fs plan).1 pc.1
          = some pc.2 := by
  induction plan with
  | nil => intro fs pc h; simp [gui_transcribe.attemptWrites] at h
  | cons e rest ih =>
    obtain ⟨q, c⟩ := e
    simp only [List.map_cons, List.nodup_cons] at hnd
    intro fs pc h
    by_cases hq : ok q
    · simp only [gui_transcribe.attemptWrites, hq, if_true, List.mem_cons] at h ⊢
      rcases h with rfl | hmem
      · rw [attemptWrites_fst_preserve ok rest _ _ hnd.1, getFile_setFile_self]
      · exact ih hnd.2 _ pc hmem
    · simp [gui_transcribe.attemptWrites, hq] at h

theorem append_left_cancel_str {s t1 t2 : String} (h : s ++ t1 = s ++ t2) : t1 = t2 := by
  have hd := congrArg String.data h
  simp only [String.data_append] at hd
  exact String.ext ((List.append_right_inj s.data).mp hd)

theorem joinPath_suffix_ne (d b e1 e2 : String) (h : e1 ≠ e2) :
    gui_transcribe.joinPath d (b ++ e1) ≠ gui_transcribe.joinPath d (b ++ e2) := by
  intro he
  exact h (append_left_cancel_str (append_left_cancel_str he))

theorem joinPath_cross_ne (d1 d2 b e1 e2 : String)
    (hl : e1.data.length = e2.data.length) (hd : d1 ≠ d2) :
    gui_transcribe.joinPath d1 (b ++ e1) ≠ gui_transcribe.joinPath d2 (b ++ e2) := by
  intro he
  have hdata := congrArg String.data he
  simp only [gui_transcribe.joinPath, String.data_append, List.append_assoc] at hdata
  have hlen : ("/".data ++ (b.data ++ e1.data)).length
      = ("/".data ++ (b.data ++ e2.data)).length := by
    simp [hl]
  exact hd (String.ext (List.append_inj' hdata hlen).1)

theorem mem_writePlan_fst {p d b : String} {sf vf : Bool} {segs : List Segment}
    (h : p ∈ (gui_transcribe.writePlan d b sf vf segs).map Prod.fst) :
    p = gui_transcribe.txt_path d b ∨ p = gui_transcribe.srt_path d b
      ∨ p = gui_transcribe.vtt_path d b := by
  rcases sf <;> rcases vf <;> simp [gui_transcribe.writePlan] at h <;> tauto

theorem mem_wroteList {p d b : String} {sf vf : Bool}
    (h : p ∈ gui_transcribe.wroteList d b sf vf) :
    p = gui_transcribe.txt_path d b ∨ p = gui_transcribe.srt_path d b
      ∨ p = gui_transcribe.vtt_path d b := by
  rcases sf <;> rcases vf <;> simp [gui_transcribe.wroteList] at h <;> tauto

theorem writePlan_fst_nodup (d b : String) (sf vf : Bool) (segs : List Segment) :
    ((gui_transcribe.writePlan d b sf vf segs).map Prod.fst).Nodup := by
  have h1 : gui_transcribe.txt_path d b ≠ gui_transcribe.srt_path d b :=
    joinPath_suffix_ne d b ".txt" ".srt" (by decide)
  have h2 : gui_transcribe.txt_path d b ≠ gui_transcribe.vtt_path d b :=
    joinPath_suffix_ne d b ".txt" ".vtt" (by decide)
  have h3 : gui_transcribe.srt_path d b ≠ gui_transcribe.vtt_path d b :=
    joinPath_suffix_ne d b ".srt" ".vtt" (by decide)
  rcases sf <;> rcases vf <;> simp [gui_transcribe.writePlan, h1, h2, h3]

theorem writePlan_paths_disjoint {out fb : String} (hne : out ≠ fb) (b : String)
    (sf vf : Bool) (segs : List Segment) (sf' vf' : Bool) (segs' : List Segment) :
    ∀ p ∈ (gui_transcribe.writePlan out b sf vf segs).map Prod.fst,
      p ∉ (gui_transcribe.writePlan fb b sf' vf' segs').map Prod.fst := by
  intro p hp hq
  rcases mem_writePlan_fst hp with rfl | rfl | rfl <;>
    rcases mem_writePlan_fst hq with h | h | h <;>
    exact joinPath_cross_ne _ _ _ _ _ (by decide) hne h

/-- C3: when the primary batch of writes fails, the GUI write phase does not
propagate the error: it retries the entire batch (all requested formats)
against the fixed default directory, provided that directory can be created;
on fallback success the reported manifest lists exactly the paths under the
fallback directory, and only when the fallback (or its `mkdir`) also fails
does the phase end in the fatal `failed` outcome — there is no further
retry. -/
theorem write_fallback_c3
    (ok mkdirOk : String → Bool) (fs fs1 : gui_transcribe.FsState)
    (written : List (String × String)) (out home base : String) (sf vf : Bool)
    (segs : List Segment)
    (hp : gui_transcribe.attemptWrites ok fs (gui_transcribe.writePlan out base sf vf segs)
        = (fs1, written, false)) :
    (mkdirOk (gui_transcribe.DEFAULT_OUT home) = false →
      gui_transcribe.writePhase ok mkdirOk fs out (gui_transcribe.DEFAULT_OUT home)
          base sf vf segs
        = (fs1, .failed))
    ∧ (∀ (fs2 : gui_transcribe.FsState) (w2 : List (String × String)),
        mkdirOk (gui_transcribe.DEFAULT_OUT home) = true →
        gui_transcribe.attemptWrites ok fs1
            (gui_transcribe.writePlan (gui_transcribe.DEFAULT_OUT home) base sf vf segs)
          = (fs2, w2, true) →
        gui_transcribe.writePhase ok mkdirOk fs out (gui_transcribe.DEFAULT_OUT home)
            base sf vf segs
          = (fs2, .done (gui_transcribe.wroteList (gui_transcribe.DEFAULT_OUT home) base sf vf))
        ∧ ∀ p ∈ gui_transcribe.wroteList (gui_transcribe.DEFAULT_OUT home) base sf vf,
            ∃ name, p = gui_transcribe.joinPath (gui_transcribe.DEFAULT_OUT home) name)
    ∧ (∀ (fs2 : gui_transcribe.FsState) (w2 : List (String × String)),
        mkdirOk (gui_transcribe.DEFAULT_OUT home) = true →
        gui_transcribe.attemptWrites ok fs1
            (gui_transcribe.writePlan (gui_transcribe.DEFAULT_OUT home) base sf vf segs)
          = (fs2, w2, false) →
        gui_transcribe.writePhase ok mkdirOk fs out (gui_transcribe.DEFAULT_OUT home)
            base sf vf segs
          = (fs2, .failed)) := by
  refine ⟨?_, ?_, ?_⟩
  · intro hmk
    simp [gui_transcribe.writePhase, hp, hmk]
  · intro fs2 w2 hmk hfb
    refine ⟨by simp [gui_transcribe.writePhase, hp, hmk, hfb], ?_⟩
    intro p hpm
    rcases mem_wroteList hpm with rfl | rfl | rfl
    · exact ⟨base ++ ".txt", rfl⟩
    · exact ⟨base ++ ".srt", rfl⟩
    · exact ⟨base ++ ".vtt", rfl⟩
  · intro fs2 w2 hmk hfb
    simp [gui_transcribe.writePhase, hp, hmk, hfb]

theorem write_fallback_c3_witness :
    (gui_transcribe.attemptWrites (fun _ => false) (⟨[]⟩ : gui_transcribe.FsState)
        (gui_transcribe.writePlan "/out" "a" false false [])
      = (⟨[]⟩, [], false))
    ∧ gui_transcribe.writePhase (fun _ => false) (fun _ => false) ⟨[]⟩ "/out"
        (gui_transcribe.DEFAULT_OUT "/home/u") "a" false false [] = (⟨[]⟩, .failed) :=
  ⟨rfl, (write_fallback_c3 (fun _ => false) (fun _ => false) ⟨[]⟩ ⟨[]⟩ [] "/out" "/home/u"
    "a" false false [] rfl).1 rfl⟩

/-- C9: when the primary batch fails partway, every file it had already
written at the primary location is still present with its original content
after the whole write phase, whatever happens during the fallback retry (the
fallback writes only under the fallback directory and never touches or
re-attempts the primary files). -/
theorem partial_frame_c9
    (ok mkdirOk : String → Bool) (fs fs1 : gui_transcribe.FsState)
    (written : List (String × String)) (out home base : String) (sf vf : Bool)
    (segs : List Segment)
    (hout : out ≠ gui_transcribe.DEFAULT_OUT home)
    (hp : gui_transcribe.attemptWrites ok fs (gui_transcribe.writePlan out base sf vf segs)
        = (fs1, written, false)) :
    ∀ pc ∈ written,
      gui_transcribe.getFile
        (gui_transcribe.writePhase ok mkdirOk fs out (gui_transcribe.DEFAULT_OUT home)
          base sf vf segs).1 pc.1 = some pc.2 := by
  intro pc hpc
  have htot := attemptWrites_written_getFile ok
    (gui_transcribe.writePlan out base sf vf segs) (writePlan_fst_nodup out base sf vf segs) fs
  rw [hp] at htot
  have h1 : gui_transcribe.getFile fs1 pc.1 = some pc.2 := htot pc hpc
  have hsub := attemptWrites_written_sub ok (gui_transcribe.writePlan out base sf vf segs) fs
  rw [hp] at hsub
  have hmem : pc.1 ∈ (gui_transcribe.writePlan out base sf vf segs).map Prod.fst :=
    List.mem_map_of_mem Prod.fst (hsub pc hpc)
  have hnot : pc.1 ∉ (gui_transcribe.writePlan (gui_transcribe.DEFAULT_OUT home)
      base sf vf segs).map Prod.fst :=
    writePlan_paths_disjoint hout base sf vf segs sf vf segs pc.1 hmem
  simp only [gui_transcribe.writePhase, hp]
  by_cases hmk : mkdirOk (gui_transcribe.DEFAULT_OUT home)
  · simp only [hmk, if_true, Bool.false_eq_true, if_false]
    split
    · rw [attemptWrites_fst_preserve ok _ _ _ hnot]
      exact h1
    · rw [attemptWrites_fst_preserve ok _ _ _ hnot]
      exact h1
  · simp only [hmk, Bool.false_eq_true, if_false]
    exact h1

theorem partial_frame_c9_witness :
    ("/out" ≠ gui_transcribe.DEFAULT_OUT "/home/u")
    ∧ (gui_transcribe.attemptWrites (fun p => p == "/out/a.txt")
        (⟨[]⟩ : gui_transcribe.FsState) (gui_transcribe.writePlan "/out" "a" true false [])
      = (⟨[("/out/a.txt", "")]⟩, [("/out/a.txt", "")], false))
    ∧ gui_transcribe.getFile
        (gui_transcribe.writePhase (fun p => p == "/out/a.txt") (fun _ => true) ⟨[]⟩ "/out"
          (gui_transcribe.DEFAULT_OUT "/home/u") "a" true false []).1 "/out/a.txt"
      = some "" :=
  ⟨by decide, by decide,
    partial_frame_c9 (fun p => p == "/out/a.txt") (fun _ => true) ⟨[]⟩
      ⟨[("/out/a.txt", "")]⟩ [("/out/a.txt", "")] "/out" "/home/u" "a" true false []
      (by decide) (by decide) ("/out/a.txt", "") (by decide)⟩

/-- C10: in both front-ends the txt file is the first write of the plan for
every flag combination, and the manifest starts with the txt path and then
lists the srt and vtt paths, in that order, exactly when their flags are
set. -/
theorem manifest_order_c10 :
    (∀ (t s v : String) (sf vf : Bool),
        (transcribe.main_wrote t s v sf vf).head? = some t)
    ∧ (∀ t s v : String,
        transcribe.main_wrote t s v true true = [t, s, v]
        ∧ transcribe.main_wrote t s v true false = [t, s]
        ∧ transcribe.main_wrote t s v false true = [t, v]
        ∧ transcribe.main_wrote t s v false false = [t])
    ∧ (∀ (base : String) (sf vf : Bool) (segs : List Segment),
        (transcribe.main_writePlan base sf vf segs).head?
          = some (base ++ ".txt", transcribe.write_txt segs))
    ∧ (∀ (dir base : String) (sf vf : Bool) (segs : List Segment),
        (gui_transcribe.writePlan dir base sf vf segs).head?
          = some (gui_transcribe.txt_path dir base, gui_transcribe.write_txt segs))
    ∧ (∀ (dir base : String) (sf vf : Bool),
        (gui_transcribe.wroteList dir base sf vf).head?
          = some (gui_transcribe.txt_path dir base))
    ∧ (∀ dir base : String,
        gui_transcribe.wroteList dir base true true
          = [gui_transcribe.txt_path dir base, gui_transcribe.srt_path dir base,
              gui_transcribe.vtt_path dir base]
        ∧ gui_transcribe.wroteList dir base true false
          = [gui_transcribe.txt_path dir base, gui_transcribe.srt_path dir base]
        ∧ gui_transcribe.wroteList dir base false true
          = [gui_transcribe.txt_path dir base, gui_transcribe.vtt_path dir base]
        ∧ gui_transcribe.wroteList dir base false false
          = [gui_transcribe.txt_path dir base]) :=
  ⟨fun _ _ _ _ _ => rfl, fun _ _ _ => ⟨rfl, rfl, rfl, rfl⟩, fun _ _ _ _ => rfl,
    fun _ _ _ _ _ => rfl, fun _ _ _ _ => rfl, fun _ _ => ⟨rfl, rfl, rfl, rfl⟩⟩

end Embedding
